import Mathlib

/-!
Verification of the suistody-core policy-enforcement engine.

The Move contract `contracts/sources/agent_vault.move` is embedded as pure
Lean functions over `Nat` (Move `u64`/`u8` values; Move aborts on arithmetic
overflow and underflow, which we model with an explicit `MoveAbort.arith`
outcome, and `assert!` failures are `MoveAbort.code`).  Object identities
(`ID`, `address`) are modelled as `Nat`.  A Move abort rolls the whole
transaction back, so an operation is a function returning `Except`: on
`Except.error` the caller's state is unchanged by construction, which is
exactly Move's atomicity guarantee.

The TypeScript mirror `lib/agent/policy-checker.ts` is embedded over `Int`
(`bigint` amounts are exact integers; the millisecond timestamps are JS
numbers, exact integers in the tested domain, and their subtraction may go
negative, which `Int` captures).  The human-readable reason strings are
abstracted to `MirrorReason` tags, one per distinct return site.
-/

namespace AgentVault

/-- Modulus of the Move `u64` type (the literal value of `2 ^ 64`):
arithmetic reaching this bound aborts. -/
def u64Mod : Nat := 18446744073709551616

/-- Outcome of a Move abort: an `assert!` code, or an arithmetic
overflow/underflow abort. -/
inductive MoveAbort where
  | code (c : Nat) : MoveAbort
  | arith : MoveAbort
deriving DecidableEq, Repr

def E_NOT_OWNER : Nat := 0
def E_BUDGET_EXCEEDED : Nat := 1
def E_NOT_WHITELISTED : Nat := 2
def E_EXPIRED : Nat := 3
def E_COOLDOWN : Nat := 4
def E_INVALID_CAP : Nat := 5
def E_INSUFFICIENT_BALANCE : Nat := 6
def E_PER_TX_EXCEEDED : Nat := 7
def E_ZERO_AMOUNT : Nat := 8

/-- Policy struct of `agent_vault.move`: agent operation limits. -/
structure Policy where
  max_budget : Nat
  max_per_tx : Nat
  allowed_actions : List Nat
  cooldown_ms : Nat
  expires_at : Nat
deriving DecidableEq, Repr

/-- Vault struct: shared object holding funds with policy-based access
control.  The `id` field models the object identity `object::id(vault)`,
and `balance_sui` the value of the stored `Balance<SUI>`. -/
structure Vault where
  id : Nat
  owner : Nat
  balance_sui : Nat
  policy : Policy
  authorized_caps : List Nat
  total_spent : Nat
  last_tx_time : Nat
  tx_count : Nat
deriving DecidableEq, Repr

/-- AgentCap struct: the agent's permission token. -/
structure AgentCap where
  id : Nat
  vault_id : Nat
deriving DecidableEq, Repr

/-- OwnerCap struct: the vault owner's proof of ownership. -/
structure OwnerCap where
  id : Nat
  vault_id : Nat
deriving DecidableEq, Repr

/-- AgentWithdrawal event emitted by `agent_withdraw`. -/
structure AgentWithdrawal where
  vault_id : Nat
  agent_cap_id : Nat
  amount : Nat
  action_type : Nat
  total_spent : Nat
  remaining_budget : Nat
  tx_count : Nat
  timestamp : Nat
deriving DecidableEq, Repr

/-- Deposited event emitted by `deposit`. -/
structure Deposited where
  vault_id : Nat
  amount : Nat
  new_balance : Nat
deriving DecidableEq, Repr

/-- WithdrawnAll event emitted by `withdraw_all`. -/
structure WithdrawnAll where
  vault_id : Nat
  amount : Nat
deriving DecidableEq, Repr

/-- PolicyUpdated event emitted by `update_policy`. -/
structure PolicyUpdated where
  vault_id : Nat
  max_budget : Nat
  max_per_tx : Nat
  cooldown_ms : Nat
  expires_at : Nat
deriving DecidableEq, Repr

/-- AgentCapRevoked event emitted by `revoke_agent_cap`. -/
structure AgentCapRevoked where
  vault_id : Nat
  cap_id : Nat
deriving DecidableEq, Repr

/-- Move `vector::index_of`: `(true, i)` with `i` the first index of the
element, or `(false, 0)` when absent. -/
def index_of (l : List Nat) (e : Nat) : Bool × Nat :=
  match l with
  | [] => (false, 0)
  | x :: xs =>
    if x = e then (true, 0)
    else
      let r := index_of xs e
      if r.fst then (true, r.snd + 1) else (false, 0)

/-- `create_vault`: builds the shared Vault (zero counters, empty capability
registry) and the OwnerCap transferred to the sender.  Fresh object ids are
supplied by the caller, standing for `object::new`. -/
def create_vault (coin : Nat) (max_budget max_per_tx : Nat)
    (allowed_actions : List Nat) (cooldown_ms expires_at : Nat)
    (sender vault_uid owner_cap_uid : Nat) : Vault × OwnerCap :=
  ({ id := vault_uid
     owner := sender
     balance_sui := coin
     policy :=
      { max_budget := max_budget
        max_per_tx := max_per_tx
        allowed_actions := allowed_actions
        cooldown_ms := cooldown_ms
        expires_at := expires_at }
     authorized_caps := []
     total_spent := 0
     last_tx_time := 0
     tx_count := 0 },
   { id := owner_cap_uid, vault_id := vault_uid })

/-- `deposit`: owner deposits additional funds.  The `Balance::join` is a
`u64` addition, aborting on overflow. -/
def deposit (vault : Vault) (owner_cap : OwnerCap) (coin : Nat) :
    Except MoveAbort (Vault × Deposited) :=
  if owner_cap.vault_id ≠ vault.id then .error (.code E_NOT_OWNER)
  else if u64Mod ≤ vault.balance_sui + coin then .error .arith
  else
    .ok ({ vault with balance_sui := vault.balance_sui + coin },
         { vault_id := vault.id, amount := coin,
           new_balance := vault.balance_sui + coin })

/-- `withdraw_all`: owner withdraws every unit; returns the coin value. -/
def withdraw_all (vault : Vault) (owner_cap : OwnerCap) :
    Except MoveAbort (Vault × WithdrawnAll × Nat) :=
  if owner_cap.vault_id ≠ vault.id then .error (.code E_NOT_OWNER)
  else
    .ok ({ vault with balance_sui := 0 },
         { vault_id := vault.id, amount := vault.balance_sui },
         vault.balance_sui)

/-- `withdraw`: owner withdraws a specific amount. -/
def withdraw (vault : Vault) (owner_cap : OwnerCap) (amount : Nat) :
    Except MoveAbort (Vault × Nat) :=
  if owner_cap.vault_id ≠ vault.id then .error (.code E_NOT_OWNER)
  else if amount = 0 then .error (.code E_ZERO_AMOUNT)
  else if vault.balance_sui < amount then .error (.code E_INSUFFICIENT_BALANCE)
  else .ok ({ vault with balance_sui := vault.balance_sui - amount }, amount)

/-- `reset_counters`: owner resets the spending counters. -/
def reset_counters (vault : Vault) (owner_cap : OwnerCap) :
    Except MoveAbort Vault :=
  if owner_cap.vault_id ≠ vault.id then .error (.code E_NOT_OWNER)
  else .ok { vault with total_spent := 0, tx_count := 0, last_tx_time := 0 }

/-- `update_policy`: owner replaces the whole Policy value. -/
def update_policy (vault : Vault) (owner_cap : OwnerCap)
    (max_budget max_per_tx : Nat) (allowed_actions : List Nat)
    (cooldown_ms expires_at : Nat) :
    Except MoveAbort (Vault × PolicyUpdated) :=
  if owner_cap.vault_id ≠ vault.id then .error (.code E_NOT_OWNER)
  else
    .ok ({ vault with policy :=
            { max_budget := max_budget
              max_per_tx := max_per_tx
              allowed_actions := allowed_actions
              cooldown_ms := cooldown_ms
              expires_at := expires_at } },
         { vault_id := vault.id, max_budget := max_budget,
           max_per_tx := max_per_tx, cooldown_ms := cooldown_ms,
           expires_at := expires_at })

/-- `create_agent_cap`: owner mints an AgentCap; its fresh id is pushed onto
`authorized_caps` and the token is transferred to the agent address. -/
def create_agent_cap (vault : Vault) (owner_cap : OwnerCap)
    (cap_uid : Nat) : Except MoveAbort (Vault × AgentCap) :=
  if owner_cap.vault_id ≠ vault.id then .error (.code E_NOT_OWNER)
  else
    .ok ({ vault with authorized_caps := vault.authorized_caps ++ [cap_uid] },
         { id := cap_uid, vault_id := vault.id })

/-- `revoke_agent_cap`: owner removes a capability id from the registry,
by `vector::index_of` followed by `vector::remove` at the found index. -/
def revoke_agent_cap (vault : Vault) (owner_cap : OwnerCap) (cap_id : Nat) :
    Except MoveAbort (Vault × AgentCapRevoked) :=
  if owner_cap.vault_id ≠ vault.id then .error (.code E_NOT_OWNER)
  else
    let found_idx := index_of vault.authorized_caps cap_id
    if found_idx.fst = false then .error (.code E_INVALID_CAP)
    else
      .ok ({ vault with
              authorized_caps := vault.authorized_caps.eraseIdx found_idx.snd },
           { vault_id := vault.id, cap_id := cap_id })

/-- `agent_withdraw`: the authoritative delegated withdrawal.  Each Move
`assert!(cond, e)` becomes an early `.error (.code e)` on `¬cond`; the two
`u64` subtractions (`now - last_tx_time`, `max_budget - total_spent`) abort
with `.arith` on underflow before their comparison is evaluated, and the
commit-phase `u64` additions abort with `.arith` on overflow.  The event's
`max_budget - total_spent` subtraction cannot underflow on the success path
(check 6 guarantees `total_spent + amount ≤ max_budget`), so plain `Nat`
subtraction is exact there. -/
def agent_withdraw (vault : Vault) (cap : AgentCap) (amount : Nat)
    (action_type : Nat) (now : Nat) :
    Except MoveAbort (Vault × AgentWithdrawal × Nat) :=
  if amount = 0 then .error (.code E_ZERO_AMOUNT)
  else if cap.vault_id ≠ vault.id then .error (.code E_INVALID_CAP)
  else if (index_of vault.authorized_caps cap.id).fst = false then
    .error (.code E_INVALID_CAP)
  else if vault.policy.expires_at ≤ now then .error (.code E_EXPIRED)
  else if 0 < vault.tx_count ∧ now < vault.last_tx_time then .error .arith
  else if 0 < vault.tx_count ∧
      now - vault.last_tx_time < vault.policy.cooldown_ms then
    .error (.code E_COOLDOWN)
  else if vault.policy.max_per_tx < amount then .error (.code E_PER_TX_EXCEEDED)
  else if vault.policy.max_budget < vault.total_spent then .error .arith
  else if vault.policy.max_budget - vault.total_spent < amount then
    .error (.code E_BUDGET_EXCEEDED)
  else if ¬ action_type ∈ vault.policy.allowed_actions then
    .error (.code E_NOT_WHITELISTED)
  else if vault.balance_sui < amount then .error (.code E_INSUFFICIENT_BALANCE)
  else if u64Mod ≤ vault.total_spent + amount then .error .arith
  else if u64Mod ≤ vault.tx_count + 1 then .error .arith
  else
    let new_spent := vault.total_spent + amount
    .ok ({ vault with
            total_spent := new_spent
            last_tx_time := now
            tx_count := vault.tx_count + 1
            balance_sui := vault.balance_sui - amount },
         { vault_id := vault.id, agent_cap_id := cap.id, amount := amount,
           action_type := action_type, total_spent := new_spent,
           remaining_budget := vault.policy.max_budget - new_spent,
           tx_count := vault.tx_count + 1, timestamp := now },
         amount)

end AgentVault

namespace Sdk

/-- Policy interface of `lib/vault/types.ts`: `bigint` amounts and JS-number
millisecond fields, both exact integers, embedded as `Int`. -/
structure TsPolicy where
  maxBudget : Int
  maxPerTx : Int
  allowedActions : List Int
  cooldownMs : Int
  expiresAt : Int
deriving DecidableEq, Repr

/-- VaultData interface of `lib/vault/types.ts` (object identifier strings
modelled as `Nat`, matching the Move-side identity model). -/
structure TsVault where
  id : Nat
  owner : Nat
  balance : Int
  policy : TsPolicy
  authorizedCaps : List Nat
  totalSpent : Int
  lastTxTime : Int
  txCount : Int
deriving DecidableEq, Repr

/-- Return site of `checkPolicy`, one tag per distinct reason string. -/
inductive MirrorReason where
  | expired
  | cooldownActive
  | actionNotWhitelisted
  | zeroAmount
  | perTxExceeded
  | budgetExceeded
  | insufficientBalance
  | passed
deriving DecidableEq, Repr

/-- PolicyCheckResult of `lib/agent/policy-checker.ts`, the reason string
abstracted to its `MirrorReason` tag. -/
structure PolicyCheckResult where
  allowed : Bool
  reason : MirrorReason
deriving DecidableEq, Repr

/-- `checkPolicy` of `lib/agent/policy-checker.ts`: the off-chain mirror
pre-check.  Each early `return` becomes a branch; the amount-related block
runs only when `amount` is supplied. -/
def checkPolicy (vault : TsVault) (actionType : Int) (nowMs : Int)
    (amount : Option Int) : PolicyCheckResult :=
  if vault.policy.expiresAt ≤ nowMs then
    { allowed := false, reason := .expired }
  else if 0 < vault.txCount ∧ nowMs - vault.lastTxTime < vault.policy.cooldownMs then
    { allowed := false, reason := .cooldownActive }
  else if ¬ actionType ∈ vault.policy.allowedActions then
    { allowed := false, reason := .actionNotWhitelisted }
  else
    match amount with
    | none => { allowed := true, reason := .passed }
    | some a =>
      if a ≤ 0 then { allowed := false, reason := .zeroAmount }
      else if vault.policy.maxPerTx < a then
        { allowed := false, reason := .perTxExceeded }
      else if vault.policy.maxBudget - vault.totalSpent < a then
        { allowed := false, reason := .budgetExceeded }
      else if vault.balance < a then
        { allowed := false, reason := .insufficientBalance }
      else { allowed := true, reason := .passed }

/-- Materialize the snapshot of a live on-chain vault, as `getVault` does:
every `u64` field read into the corresponding `bigint`/number field. -/
def toTs (v : AgentVault.Vault) : TsVault :=
  { id := v.id
    owner := v.owner
    balance := (v.balance_sui : Int)
    policy :=
      { maxBudget := (v.policy.max_budget : Int)
        maxPerTx := (v.policy.max_per_tx : Int)
        allowedActions := v.policy.allowed_actions.map (fun a => (a : Int))
        cooldownMs := (v.policy.cooldown_ms : Int)
        expiresAt := (v.policy.expires_at : Int) }
    authorizedCaps := v.authorized_caps
    totalSpent := (v.total_spent : Int)
    lastTxTime := (v.last_tx_time : Int)
    txCount := (v.tx_count : Int) }

end Sdk

namespace AgentVault

/-- Transcription of the ordered check list of spec section 4.2: the failure
kind of the earliest violated check, or `none` when all nine pass.  The
cooldown elapsed time reads the spec's `now - lastOperationTime` under the
monotone-clock reading `lastOperationTime ≤ now`. -/
def specOrderFailure (vault : Vault) (cap : AgentCap) (amount : Nat)
    (action_type : Nat) (now : Nat) : Option Nat :=
  if amount = 0 then some E_ZERO_AMOUNT
  else if cap.vault_id ≠ vault.id then some E_INVALID_CAP
  else if cap.id ∉ vault.authorized_caps then some E_INVALID_CAP
  else if ¬ now < vault.policy.expires_at then some E_EXPIRED
  else if 0 < vault.tx_count ∧
      now - vault.last_tx_time < vault.policy.cooldown_ms then some E_COOLDOWN
  else if ¬ amount ≤ vault.policy.max_per_tx then some E_PER_TX_EXCEEDED
  else if ¬ amount ≤ vault.policy.max_budget - vault.total_spent then
    some E_BUDGET_EXCEEDED
  else if action_type ∉ vault.policy.allowed_actions then some E_NOT_WHITELISTED
  else if ¬ amount ≤ vault.balance_sui then some E_INSUFFICIENT_BALANCE
  else none

theorem index_of_fst (l : List Nat) (e : Nat) :
    (index_of l e).fst = true ↔ e ∈ l := by
  induction l with
  | nil => simp [index_of]
  | cons x xs ih =>
    unfold index_of
    by_cases hx : x = e
    · simp [hx]
    · rw [if_neg hx]
      by_cases hr : (index_of xs e).fst
      · simp [hr, ih.mp hr]
      · have : e ∉ xs := fun hc => hr ((ih).mpr hc)
        simp only [Bool.not_eq_true] at hr
        simp [hr, hx, this]
        exact fun hc => hx hc.symm

theorem index_of_fst_false (l : List Nat) (e : Nat) :
    ((index_of l e).fst = false) ↔ e ∉ l := by
  rw [← index_of_fst l e]
  cases (index_of l e).fst <;> simp


theorem aw_error_code_iff (v : Vault) (cap : AgentCap)
    (amount action now : Nat)
    (hclock : 0 < v.tx_count → v.last_tx_time ≤ now)
    (hinv : v.total_spent ≤ v.policy.max_budget) (e : Nat) :
    agent_withdraw v cap amount action now = .error (.code e) ↔
      specOrderFailure v cap amount action now = some e := by
  have hA : ¬ (0 < v.tx_count ∧ now < v.last_tx_time) := by
    rintro ⟨h1, h2⟩
    exact absurd (hclock h1) (by omega)
  have hB : ¬ (v.policy.max_budget < v.total_spent) := by omega
  unfold agent_withdraw specOrderFailure
  rw [if_neg hA, if_neg hB]
  by_cases h1 : amount = 0
  · rw [if_pos h1, if_pos h1]; simp
  rw [if_neg h1, if_neg h1]
  by_cases h2 : cap.vault_id = v.id
  on_goal 2 =>
    have h2' : cap.vault_id ≠ v.id := h2
    rw [if_pos h2', if_pos h2']; simp
  have h2' : ¬ cap.vault_id ≠ v.id := by simp [h2]
  rw [if_neg h2', if_neg h2']
  by_cases h3 : cap.id ∈ v.authorized_caps
  on_goal 2 =>
    have h3a : (index_of v.authorized_caps cap.id).fst = false := by
      rw [index_of_fst_false]; exact h3
    have h3b : cap.id ∉ v.authorized_caps := h3
    rw [if_pos h3a, if_pos h3b]; simp
  have h3a : ¬ (index_of v.authorized_caps cap.id).fst = false := by
    simp [index_of_fst_false, h3]
  have h3b : ¬ cap.id ∉ v.authorized_caps := by simp [h3]
  rw [if_neg h3a, if_neg h3b]
  by_cases h4 : v.policy.expires_at ≤ now
  · have h4' : ¬ now < v.policy.expires_at := by omega
    rw [if_pos h4, if_pos h4']; simp
  have h4' : ¬ ¬ now < v.policy.expires_at := by omega
  rw [if_neg h4, if_neg h4']
  by_cases h5 : 0 < v.tx_count ∧ now - v.last_tx_time < v.policy.cooldown_ms
  · rw [if_pos h5, if_pos h5]; simp
  rw [if_neg h5, if_neg h5]
  by_cases h6 : v.policy.max_per_tx < amount
  · have h6' : ¬ amount ≤ v.policy.max_per_tx := by omega
    rw [if_pos h6, if_pos h6']; simp
  have h6' : ¬ ¬ amount ≤ v.policy.max_per_tx := by omega
  rw [if_neg h6, if_neg h6']
  by_cases h7 : v.policy.max_budget - v.total_spent < amount
  · have h7' : ¬ amount ≤ v.policy.max_budget - v.total_spent := by omega
    rw [if_pos h7, if_pos h7']; simp
  have h7' : ¬ ¬ amount ≤ v.policy.max_budget - v.total_spent := by omega
  rw [if_neg h7, if_neg h7']
  by_cases h8 : action ∈ v.policy.allowed_actions
  on_goal 2 =>
    have h8a : ¬ action ∈ v.policy.allowed_actions := h8
    rw [if_pos h8a, if_pos h8a]; simp
  have h8a : ¬ ¬ action ∈ v.policy.allowed_actions := by simp [h8]
  rw [if_neg h8a, if_neg h8a]
  by_cases h9 : v.balance_sui < amount
  · have h9' : ¬ amount ≤ v.balance_sui := by omega
    rw [if_pos h9, if_pos h9']; simp
  have h9' : ¬ ¬ amount ≤ v.balance_sui := by omega
  rw [if_neg h9, if_neg h9']
  by_cases h10 : u64Mod ≤ v.total_spent + amount
  · rw [if_pos h10]; simp
  rw [if_neg h10]
  by_cases h11 : u64Mod ≤ v.tx_count + 1
  · rw [if_pos h11]; simp
  rw [if_neg h11]
  simp

theorem aw_isOk_iff (v : Vault) (cap : AgentCap) (amount action now : Nat) :
    (agent_withdraw v cap amount action now).isOk = true ↔
      (amount ≠ 0 ∧ cap.vault_id = v.id ∧ cap.id ∈ v.authorized_caps ∧
       now < v.policy.expires_at ∧
       (0 < v.tx_count →
         v.last_tx_time ≤ now ∧
         v.policy.cooldown_ms ≤ now - v.last_tx_time) ∧
       amount ≤ v.policy.max_per_tx ∧
       v.total_spent ≤ v.policy.max_budget ∧
       amount ≤ v.policy.max_budget - v.total_spent ∧
       action ∈ v.policy.allowed_actions ∧ amount ≤ v.balance_sui ∧
       v.total_spent + amount < u64Mod ∧ v.tx_count + 1 < u64Mod) := by
  unfold agent_withdraw
  by_cases h1 : amount = 0
  · rw [if_pos h1]
    simp [Except.isOk, Except.toBool, h1]
  rw [if_neg h1]
  by_cases h2 : cap.vault_id = v.id
  on_goal 2 =>
    have h2a : cap.vault_id ≠ v.id := h2
    rw [if_pos h2a]
    simp [Except.isOk, Except.toBool, h2]
  have h2a : ¬ cap.vault_id ≠ v.id := by simp [h2]
  rw [if_neg h2a]
  by_cases h3 : cap.id ∈ v.authorized_caps
  on_goal 2 =>
    have h3a : (index_of v.authorized_caps cap.id).fst = false := by
      rw [index_of_fst_false]; exact h3
    rw [if_pos h3a]
    simp [Except.isOk, Except.toBool, h3]
  have h3a : ¬ (index_of v.authorized_caps cap.id).fst = false := by
    simp [index_of_fst_false, h3]
  rw [if_neg h3a]
  by_cases h4 : v.policy.expires_at ≤ now
  · rw [if_pos h4]
    simp only [Except.isOk, Except.toBool, Bool.false_eq_true, false_iff]
    rintro ⟨-, -, -, c4, -⟩
    omega
  rw [if_neg h4]
  by_cases h5 : 0 < v.tx_count ∧ now < v.last_tx_time
  · rw [if_pos h5]
    simp only [Except.isOk, Except.toBool, Bool.false_eq_true, false_iff]
    rintro ⟨-, -, -, -, c5, -⟩
    have := (c5 h5.1).1
    omega
  rw [if_neg h5]
  by_cases h6 : 0 < v.tx_count ∧ now - v.last_tx_time < v.policy.cooldown_ms
  · rw [if_pos h6]
    simp only [Except.isOk, Except.toBool, Bool.false_eq_true, false_iff]
    rintro ⟨-, -, -, -, c5, -⟩
    have := (c5 h6.1).2
    omega
  rw [if_neg h6]
  by_cases h7 : v.policy.max_per_tx < amount
  · rw [if_pos h7]
    simp only [Except.isOk, Except.toBool, Bool.false_eq_true, false_iff]
    rintro ⟨-, -, -, -, -, c6, -⟩
    omega
  rw [if_neg h7]
  by_cases h8 : v.policy.max_budget < v.total_spent
  · rw [if_pos h8]
    simp only [Except.isOk, Except.toBool, Bool.false_eq_true, false_iff]
    rintro ⟨-, -, -, -, -, -, c7, -⟩
    omega
  rw [if_neg h8]
  by_cases h9 : v.policy.max_budget - v.total_spent < amount
  · rw [if_pos h9]
    simp only [Except.isOk, Except.toBool, Bool.false_eq_true, false_iff]
    rintro ⟨-, -, -, -, -, -, -, c8, -⟩
    omega
  rw [if_neg h9]
  by_cases h10 : action ∈ v.policy.allowed_actions
  on_goal 2 =>
    have h10a : ¬ action ∈ v.policy.allowed_actions := h10
    rw [if_pos h10a]
    simp [Except.isOk, Except.toBool, h10]
  have h10a : ¬ ¬ action ∈ v.policy.allowed_actions := by simp [h10]
  rw [if_neg h10a]
  by_cases h11 : v.balance_sui < amount
  · rw [if_pos h11]
    simp only [Except.isOk, Except.toBool, Bool.false_eq_true, false_iff]
    rintro ⟨-, -, -, -, -, -, -, -, -, c10, -⟩
    omega
  rw [if_neg h11]
  by_cases h12 : u64Mod ≤ v.total_spent + amount
  · rw [if_pos h12]
    simp only [Except.isOk, Except.toBool, Bool.false_eq_true, false_iff]
    rintro ⟨-, -, -, -, -, -, -, -, -, -, c11, -⟩
    omega
  rw [if_neg h12]
  by_cases h13 : u64Mod ≤ v.tx_count + 1
  · rw [if_pos h13]
    simp only [Except.isOk, Except.toBool, Bool.false_eq_true, false_iff]
    rintro ⟨-, -, -, -, -, -, -, -, -, -, -, c12⟩
    omega
  rw [if_neg h13]
  simp only [Except.isOk, Except.toBool, true_iff]
  refine ⟨h1, h2, h3, by omega, fun htx => ⟨by omega, by omega⟩,
    by omega, by omega, by omega, h10, by omega, by omega, by omega⟩


end AgentVault

namespace Sdk

/-- Success characterization of the mirror pre-check when an amount is
supplied: allowed exactly when every checked dimension passes. -/
theorem checkPolicy_allowed_some_iff (tv : TsVault) (action nowMs a : Int) :
    (checkPolicy tv action nowMs (some a)).allowed = true ↔
      (nowMs < tv.policy.expiresAt ∧
       (0 < tv.txCount → tv.policy.cooldownMs ≤ nowMs - tv.lastTxTime) ∧
       action ∈ tv.policy.allowedActions ∧
       0 < a ∧ a ≤ tv.policy.maxPerTx ∧
       a ≤ tv.policy.maxBudget - tv.totalSpent ∧ a ≤ tv.balance) := by
  unfold checkPolicy
  by_cases h1 : tv.policy.expiresAt ≤ nowMs
  · rw [if_pos h1]
    simp only [Bool.false_eq_true, false_iff]
    rintro ⟨c1, -⟩
    omega
  rw [if_neg h1]
  by_cases h2 : 0 < tv.txCount ∧ nowMs - tv.lastTxTime < tv.policy.cooldownMs
  · rw [if_pos h2]
    simp only [Bool.false_eq_true, false_iff]
    rintro ⟨-, c2, -⟩
    have := c2 h2.1
    omega
  rw [if_neg h2]
  by_cases h3 : action ∈ tv.policy.allowedActions
  on_goal 2 =>
    have h3a : ¬ action ∈ tv.policy.allowedActions := h3
    rw [if_pos h3a]
    simp [h3]
  have h3a : ¬ ¬ action ∈ tv.policy.allowedActions := by simp [h3]
  rw [if_neg h3a]
  simp only []
  by_cases h4 : a ≤ 0
  · rw [if_pos h4]
    simp only [Bool.false_eq_true, false_iff]
    rintro ⟨-, -, -, c4, -⟩
    omega
  rw [if_neg h4]
  by_cases h5 : tv.policy.maxPerTx < a
  · rw [if_pos h5]
    simp only [Bool.false_eq_true, false_iff]
    rintro ⟨-, -, -, -, c5, -⟩
    omega
  rw [if_neg h5]
  by_cases h6 : tv.policy.maxBudget - tv.totalSpent < a
  · rw [if_pos h6]
    simp only [Bool.false_eq_true, false_iff]
    rintro ⟨-, -, -, -, -, c6, -⟩
    omega
  rw [if_neg h6]
  by_cases h7 : tv.balance < a
  · rw [if_pos h7]
    simp only [Bool.false_eq_true, false_iff]
    rintro ⟨-, -, -, -, -, -, c7⟩
    omega
  rw [if_neg h7]
  simp only [true_iff]
  exact ⟨by omega, fun htx => by omega, h3, by omega, by omega, by omega, by omega⟩

end Sdk

open AgentVault Sdk in
/-- A concrete vault used to instantiate hypothesis-bearing theorems: the
spec's running scenario (balance 10, budget 5, per-operation cap 1, whitelist
containing only action 0, cooldown 60000 ms, far-future expiry), with one
authorized capability id 2. -/
def sampleVault : AgentVault.Vault :=
  { id := 1
    owner := 10
    balance_sui := 10
    policy :=
      { max_budget := 5
        max_per_tx := 1
        allowed_actions := [0]
        cooldown_ms := 60000
        expires_at := 1000000 }
    authorized_caps := [2]
    total_spent := 0
    last_tx_time := 0
    tx_count := 0 }

/-- The authorized agent capability of `sampleVault`. -/
def sampleCap : AgentVault.AgentCap := { id := 2, vault_id := 1 }

/-- The owner capability of `sampleVault`. -/
def sampleOwnerCap : AgentVault.OwnerCap := { id := 3, vault_id := 1 }

/-- Claim C1: `agent_withdraw` evaluates the nine checks in exactly the order
of spec section 4.2 (zero amount, capability binding, capability membership,
expiry, cooldown, per-operation cap, budget, whitelist, balance),
short-circuiting on the first failure, so the reported failure code is that
of the earliest violated check.  Stated as: under a monotone clock and the
budget invariant (which exclude arithmetic aborts), the abort code equals
the first failure of the spec's ordered check list. -/
theorem c1_check_order_matches_spec (v : AgentVault.Vault)
    (cap : AgentVault.AgentCap) (amount action now : Nat)
    (hclock : 0 < v.tx_count → v.last_tx_time ≤ now)
    (hinv : v.total_spent ≤ v.policy.max_budget) (e : Nat) :
    AgentVault.agent_withdraw v cap amount action now =
        Except.error (AgentVault.MoveAbort.code e) ↔
      AgentVault.specOrderFailure v cap amount action now = some e :=
  AgentVault.aw_error_code_iff v cap amount action now hclock hinv e

/-- Witness for C1, at the claim's own example: amount 2 exceeds the
per-operation cap 1 and action 3 is not whitelisted, and the failure is
`E_PER_TX_EXCEEDED` (the earlier check), not `E_NOT_WHITELISTED`. -/
theorem c1_check_order_matches_spec_witness :
    AgentVault.specOrderFailure sampleVault sampleCap 2 3 5 =
        some AgentVault.E_PER_TX_EXCEEDED ∧
      AgentVault.agent_withdraw sampleVault sampleCap 2 3 5 =
        Except.error (AgentVault.MoveAbort.code AgentVault.E_PER_TX_EXCEEDED) :=
  ⟨by decide,
   (c1_check_order_matches_spec sampleVault sampleCap 2 3 5 (by decide)
      (by decide) AgentVault.E_PER_TX_EXCEEDED).mpr (by decide)⟩

theorem mem_map_natCast (l : List Nat) (a : Nat) :
    ((a : Int) ∈ l.map (fun x => (x : Int))) ↔ a ∈ l := by
  simp

/-- Claim C2: on a snapshot equal to the live state and with matching `now`,
the mirror pre-check allows exactly when the authoritative withdrawal
succeeds.  The capability presented on the authoritative path is assumed
bound and authorized (the mirror takes no capability input), and the `u64`
fields are in range as on chain. -/
theorem c2_mirror_equals_authoritative (v : AgentVault.Vault)
    (cap : AgentVault.AgentCap) (amount action now : Nat)
    (hbind : cap.vault_id = v.id) (hmem : cap.id ∈ v.authorized_caps)
    (hbud : v.policy.max_budget < AgentVault.u64Mod)
    (htx : v.tx_count + 1 < AgentVault.u64Mod) :
    (Sdk.checkPolicy (Sdk.toTs v) (action : Int) (now : Int)
        (some (amount : Int))).allowed = true ↔
      (AgentVault.agent_withdraw v cap amount action now).isOk = true := by
  rw [Sdk.checkPolicy_allowed_some_iff, AgentVault.aw_isOk_iff]
  simp only [Sdk.toTs]
  constructor
  · rintro ⟨m1, m2, m3, m4, m5, m6, m7⟩
    have hact : action ∈ v.policy.allowed_actions := (mem_map_natCast _ _).mp m3
    refine ⟨by omega, hbind, hmem, by omega, fun htc => ?_, by omega, by omega,
      by omega, hact, by omega, by omega, htx⟩
    have h5 := m2 (by exact_mod_cast htc)
    constructor <;> omega
  · rintro ⟨a1, a2, a3, a4, a5, a6, a7, a8, a9, a10, a11, a12⟩
    refine ⟨by omega, fun htc => ?_, (mem_map_natCast _ _).mpr a9, by omega,
      by omega, by omega, by omega⟩
    have htc2 : 0 < v.tx_count := by exact_mod_cast htc
    have h5 := a5 htc2
    omega

/-- Witness for C2: the sample vault allows a withdrawal of 1 unit of
action 0 at time 5 on both paths. -/
theorem c2_mirror_equals_authoritative_witness :
    (Sdk.checkPolicy (Sdk.toTs sampleVault) 0 5 (some 1)).allowed = true ∧
      (AgentVault.agent_withdraw sampleVault sampleCap 1 0 5).isOk = true :=
  ⟨by decide,
   (c2_mirror_equals_authoritative sampleVault sampleCap 1 0 5 rfl (by decide)
      (by decide) (by decide)).mp (by decide)⟩

/-- Frame lemma for a successful `agent_withdraw`: the exact state
transition and the unchanged fields. -/
theorem aw_ok_frame (v v' : AgentVault.Vault)
    (cap : AgentVault.AgentCap) (amount action now : Nat)
    (ev : AgentVault.AgentWithdrawal) (coin : Nat)
    (h : AgentVault.agent_withdraw v cap amount action now =
      Except.ok (v', ev, coin)) :
    v'.balance_sui = v.balance_sui - amount ∧ amount ≤ v.balance_sui ∧
      v'.total_spent = v.total_spent + amount ∧
      v'.tx_count = v.tx_count + 1 ∧ v'.last_tx_time = now ∧
      coin = amount ∧ v'.id = v.id ∧ v'.owner = v.owner ∧
      v'.policy = v.policy ∧ v'.authorized_caps = v.authorized_caps := by
  have hok : (AgentVault.agent_withdraw v cap amount action now).isOk = true := by
    rw [h]; rfl
  obtain ⟨a1, a2, a3, a4, a5, a6, a7, a8, a9, a10, a11, a12⟩ :=
    (AgentVault.aw_isOk_iff v cap amount action now).mp hok
  have hc5 : ¬ (0 < v.tx_count ∧ now < v.last_tx_time) := by
    rintro ⟨p, q⟩
    exact absurd ((a5 p).1) (by omega)
  have hc6 : ¬ (0 < v.tx_count ∧
      now - v.last_tx_time < v.policy.cooldown_ms) := by
    rintro ⟨p, q⟩
    exact absurd ((a5 p).2) (by omega)
  unfold AgentVault.agent_withdraw at h
  rw [if_neg a1, if_neg (by simp [a2]),
    if_neg (by simp [AgentVault.index_of_fst_false, a3]),
    if_neg (by omega : ¬ v.policy.expires_at ≤ now),
    if_neg hc5, if_neg hc6,
    if_neg (by omega : ¬ v.policy.max_per_tx < amount),
    if_neg (by omega : ¬ v.policy.max_budget < v.total_spent),
    if_neg (by omega : ¬ v.policy.max_budget - v.total_spent < amount),
    if_neg (by simp [a9]), if_neg (by omega : ¬ v.balance_sui < amount),
    if_neg (by omega : ¬ AgentVault.u64Mod ≤ v.total_spent + amount),
    if_neg (by omega : ¬ AgentVault.u64Mod ≤ v.tx_count + 1)] at h
  simp only [Except.ok.injEq, Prod.mk.injEq] at h
  obtain ⟨hv, hev, hc⟩ := h
  subst hv
  subst hc
  exact ⟨rfl, a10, rfl, rfl, rfl, rfl, rfl, rfl, rfl, rfl⟩

/-- Claim C4: when all nine checks pass, the delegated withdrawal updates
exactly `balance`, `totalSpent`, `operationCount` and `lastOperationTime`
as specified, returns the withdrawn amount, and leaves `owner`, `policy`
and `authorizedCapabilities` (and the identity) unchanged.  Failure-case
atomicity is structural in this embedding: an aborting call returns
`Except.error` and the caller's vault value is untouched. -/
theorem c4_delegated_withdraw_frame (v v' : AgentVault.Vault)
    (cap : AgentVault.AgentCap) (amount action now : Nat)
    (ev : AgentVault.AgentWithdrawal) (coin : Nat)
    (h : AgentVault.agent_withdraw v cap amount action now =
      Except.ok (v', ev, coin)) :
    v'.balance_sui = v.balance_sui - amount ∧ amount ≤ v.balance_sui ∧
      v'.total_spent = v.total_spent + amount ∧
      v'.tx_count = v.tx_count + 1 ∧ v'.last_tx_time = now ∧
      coin = amount ∧ v'.id = v.id ∧ v'.owner = v.owner ∧
      v'.policy = v.policy ∧ v'.authorized_caps = v.authorized_caps :=
  aw_ok_frame v v' cap amount action now ev coin h

/-- Witness for C4: the sample vault's withdrawal of 1 unit at time 5. -/
theorem c4_delegated_withdraw_frame_witness :
    ({ sampleVault with
        balance_sui := 9, total_spent := 1, last_tx_time := 5,
        tx_count := 1 } : AgentVault.Vault).balance_sui =
        sampleVault.balance_sui - 1 ∧ 1 ≤ sampleVault.balance_sui ∧
      ({ sampleVault with
          balance_sui := 9, total_spent := 1, last_tx_time := 5,
          tx_count := 1 } : AgentVault.Vault).total_spent =
        sampleVault.total_spent + 1 ∧
      ({ sampleVault with
          balance_sui := 9, total_spent := 1, last_tx_time := 5,
          tx_count := 1 } : AgentVault.Vault).tx_count =
        sampleVault.tx_count + 1 ∧
      ({ sampleVault with
          balance_sui := 9, total_spent := 1, last_tx_time := 5,
          tx_count := 1 } : AgentVault.Vault).last_tx_time = 5 ∧
      (1 : Nat) = 1 ∧
      ({ sampleVault with
          balance_sui := 9, total_spent := 1, last_tx_time := 5,
          tx_count := 1 } : AgentVault.Vault).id = sampleVault.id ∧
      ({ sampleVault with
          balance_sui := 9, total_spent := 1, last_tx_time := 5,
          tx_count := 1 } : AgentVault.Vault).owner = sampleVault.owner ∧
      ({ sampleVault with
          balance_sui := 9, total_spent := 1, last_tx_time := 5,
          tx_count := 1 } : AgentVault.Vault).policy = sampleVault.policy ∧
      ({ sampleVault with
          balance_sui := 9, total_spent := 1, last_tx_time := 5,
          tx_count := 1 } : AgentVault.Vault).authorized_caps =
        sampleVault.authorized_caps :=
  c4_delegated_withdraw_frame sampleVault
    { sampleVault with
        balance_sui := 9, total_spent := 1, last_tx_time := 5, tx_count := 1 }
    sampleCap 1 0 5
    { vault_id := 1, agent_cap_id := 2, amount := 1, action_type := 0,
      total_spent := 1, remaining_budget := 4, tx_count := 1, timestamp := 5 }
    1 (by rfl)

/-- Claim C6: a freshly created vault and a vault just after a successful
counter reset have `tx_count = 0`, and a delegated withdrawal from any state
with `tx_count = 0` never fails with the cooldown code, for every cooldown
value and every `now` (the cooldown check is guarded by `tx_count > 0`). -/
theorem c6_first_withdrawal_no_cooldown :
    (∀ coin mb mpt aa cd ea s vu ou,
      ((AgentVault.create_vault coin mb mpt aa cd ea s vu ou).1).tx_count = 0) ∧
      (∀ v oc v', AgentVault.reset_counters v oc = Except.ok v' →
        v'.tx_count = 0) ∧
      (∀ v cap amount action now, v.tx_count = 0 →
        AgentVault.agent_withdraw v cap amount action now ≠
          Except.error (AgentVault.MoveAbort.code AgentVault.E_COOLDOWN)) := by
  refine ⟨fun _ _ _ _ _ _ _ _ _ => rfl, fun v oc v' h => ?_, ?_⟩
  · unfold AgentVault.reset_counters at h
    by_cases hoc : oc.vault_id ≠ v.id
    · rw [if_pos hoc] at h
      exact absurd h (by simp)
    · rw [if_neg hoc] at h
      simp only [Except.ok.injEq] at h
      subst h
      rfl
  · intro v cap amount action now h0
    unfold AgentVault.agent_withdraw
    have hA : ¬ (0 < v.tx_count ∧ now < v.last_tx_time) := by omega
    have hB : ¬ (0 < v.tx_count ∧
        now - v.last_tx_time < v.policy.cooldown_ms) := by omega
    rw [if_neg hA, if_neg hB]
    by_cases g1 : amount = 0
    · rw [if_pos g1]
      exact fun hcon => absurd (Except.error.inj hcon) (by decide)
    rw [if_neg g1]
    by_cases g2 : cap.vault_id ≠ v.id
    · rw [if_pos g2]
      exact fun hcon => absurd (Except.error.inj hcon) (by decide)
    rw [if_neg g2]
    by_cases g3 : (AgentVault.index_of v.authorized_caps cap.id).fst = false
    · rw [if_pos g3]
      exact fun hcon => absurd (Except.error.inj hcon) (by decide)
    rw [if_neg g3]
    by_cases g4 : v.policy.expires_at ≤ now
    · rw [if_pos g4]
      exact fun hcon => absurd (Except.error.inj hcon) (by decide)
    rw [if_neg g4]
    by_cases g5 : v.policy.max_per_tx < amount
    · rw [if_pos g5]
      exact fun hcon => absurd (Except.error.inj hcon) (by decide)
    rw [if_neg g5]
    by_cases g6 : v.policy.max_budget < v.total_spent
    · rw [if_pos g6]
      exact fun hcon => absurd (Except.error.inj hcon) (by decide)
    rw [if_neg g6]
    by_cases g7 : v.policy.max_budget - v.total_spent < amount
    · rw [if_pos g7]
      exact fun hcon => absurd (Except.error.inj hcon) (by decide)
    rw [if_neg g7]
    by_cases g8 : ¬ action ∈ v.policy.allowed_actions
    · rw [if_pos g8]
      exact fun hcon => absurd (Except.error.inj hcon) (by decide)
    rw [if_neg g8]
    by_cases g9 : v.balance_sui < amount
    · rw [if_pos g9]
      exact fun hcon => absurd (Except.error.inj hcon) (by decide)
    rw [if_neg g9]
    by_cases g10 : AgentVault.u64Mod ≤ v.total_spent + amount
    · rw [if_pos g10]
      exact fun hcon => absurd (Except.error.inj hcon) (by decide)
    rw [if_neg g10]
    by_cases g11 : AgentVault.u64Mod ≤ v.tx_count + 1
    · rw [if_pos g11]
      exact fun hcon => absurd (Except.error.inj hcon) (by decide)
    rw [if_neg g11]
    exact fun hcon => Except.noConfusion hcon

/-- Witness for C6: the reset of the sample vault yields `tx_count = 0`, and
its first withdrawal does not fail with the cooldown code even though the
cooldown is 60000 ms and `now` is 5. -/
theorem c6_first_withdrawal_no_cooldown_witness :
    sampleVault.tx_count = 0 ∧
      AgentVault.agent_withdraw sampleVault sampleCap 1 0 5 ≠
        Except.error (AgentVault.MoveAbort.code AgentVault.E_COOLDOWN) :=
  ⟨c6_first_withdrawal_no_cooldown.2.1 sampleVault sampleOwnerCap sampleVault
      (by rfl),
   c6_first_withdrawal_no_cooldown.2.2 sampleVault sampleCap 1 0 5 rfl⟩

/-- An owner capability bound to a different vault (id 2), for the
mismatched-capability cases. -/
def otherOwnerCap : AgentVault.OwnerCap := { id := 4, vault_id := 2 }

/-- Claim C8: owner partial withdrawal fails with `ZeroAmount` on amount 0
and `InsufficientBalance` above the balance; full withdrawal with a valid
owner capability always succeeds, drains the balance to zero and returns
exactly the prior balance; and neither owner withdrawal touches
`totalSpent`, `operationCount` or `lastOperationTime`. -/
theorem c8_owner_withdraw_semantics (v : AgentVault.Vault)
    (oc : AgentVault.OwnerCap) (h : oc.vault_id = v.id) :
    AgentVault.withdraw v oc 0 =
        Except.error (AgentVault.MoveAbort.code AgentVault.E_ZERO_AMOUNT) ∧
      (∀ amount, v.balance_sui < amount →
        AgentVault.withdraw v oc amount =
          Except.error
            (AgentVault.MoveAbort.code AgentVault.E_INSUFFICIENT_BALANCE)) ∧
      AgentVault.withdraw_all v oc =
        Except.ok ({ v with balance_sui := 0 },
          { vault_id := v.id, amount := v.balance_sui }, v.balance_sui) ∧
      (∀ amount v' c, AgentVault.withdraw v oc amount = Except.ok (v', c) →
        v'.total_spent = v.total_spent ∧ v'.tx_count = v.tx_count ∧
          v'.last_tx_time = v.last_tx_time ∧ c = amount ∧
          v'.balance_sui = v.balance_sui - amount) := by
  have hne : ¬ oc.vault_id ≠ v.id := by simp [h]
  refine ⟨?_, fun amount ha => ?_, ?_, fun amount v' c hw => ?_⟩
  · unfold AgentVault.withdraw
    rw [if_neg hne, if_pos rfl]
  · unfold AgentVault.withdraw
    have h0 : ¬ amount = 0 := by omega
    rw [if_neg hne, if_neg h0, if_pos ha]
  · unfold AgentVault.withdraw_all
    rw [if_neg hne]
  · unfold AgentVault.withdraw at hw
    rw [if_neg hne] at hw
    by_cases h0 : amount = 0
    · rw [if_pos h0] at hw
      exact absurd hw (by simp)
    rw [if_neg h0] at hw
    by_cases h1 : v.balance_sui < amount
    · rw [if_pos h1] at hw
      exact absurd hw (by simp)
    rw [if_neg h1] at hw
    simp only [Except.ok.injEq, Prod.mk.injEq] at hw
    obtain ⟨hv, hc⟩ := hw
    subst hv
    subst hc
    exact ⟨rfl, rfl, rfl, rfl, rfl⟩

/-- Witness for C8, on the sample vault (balance 10): withdrawing 0 fails
with the zero-amount code, withdrawing 11 fails with the insufficient
balance code, full withdrawal returns 10, and a partial withdrawal of 1
leaves all three counters unchanged. -/
theorem c8_owner_withdraw_semantics_witness :
    AgentVault.withdraw sampleVault sampleOwnerCap 0 =
        Except.error (AgentVault.MoveAbort.code AgentVault.E_ZERO_AMOUNT) ∧
      AgentVault.withdraw sampleVault sampleOwnerCap 11 =
        Except.error
          (AgentVault.MoveAbort.code AgentVault.E_INSUFFICIENT_BALANCE) ∧
      AgentVault.withdraw_all sampleVault sampleOwnerCap =
        Except.ok ({ sampleVault with balance_sui := 0 },
          { vault_id := sampleVault.id, amount := sampleVault.balance_sui },
          sampleVault.balance_sui) ∧
      (({ sampleVault with balance_sui := 9 } :
          AgentVault.Vault).total_spent = sampleVault.total_spent ∧
        ({ sampleVault with balance_sui := 9 } :
          AgentVault.Vault).tx_count = sampleVault.tx_count ∧
        ({ sampleVault with balance_sui := 9 } :
          AgentVault.Vault).last_tx_time = sampleVault.last_tx_time ∧
        (1 : Nat) = 1 ∧
        ({ sampleVault with balance_sui := 9 } :
          AgentVault.Vault).balance_sui = sampleVault.balance_sui - 1) :=
  ⟨(c8_owner_withdraw_semantics sampleVault sampleOwnerCap rfl).1,
   (c8_owner_withdraw_semantics sampleVault sampleOwnerCap rfl).2.1 11
     (by decide),
   (c8_owner_withdraw_semantics sampleVault sampleOwnerCap rfl).2.2.1,
   (c8_owner_withdraw_semantics sampleVault sampleOwnerCap rfl).2.2.2 1
     { sampleVault with balance_sui := 9 } 1 (by rfl)⟩

/-- Claim C10: `deposit` performs no positivity check: with a matching owner
capability a zero-value coin deposit succeeds, leaves the vault (balance
included) unchanged and emits a `Deposited` event with amount 0; and within
the `u64` range the only failure of `deposit` is `E_NOT_OWNER`, exactly when
the capability is bound to a different vault. -/
theorem c10_deposit_no_positivity_check (v : AgentVault.Vault)
    (oc : AgentVault.OwnerCap) :
    (oc.vault_id = v.id → v.balance_sui < AgentVault.u64Mod →
      AgentVault.deposit v oc 0 = Except.ok (v,
        { vault_id := v.id, amount := 0, new_balance := v.balance_sui })) ∧
      (∀ coin e, v.balance_sui + coin < AgentVault.u64Mod →
        AgentVault.deposit v oc coin = Except.error e →
        e = AgentVault.MoveAbort.code AgentVault.E_NOT_OWNER ∧
          oc.vault_id ≠ v.id) := by
  constructor
  · intro h hb
    have hne : ¬ oc.vault_id ≠ v.id := by simp [h]
    unfold AgentVault.deposit
    rw [if_neg hne, if_neg (by omega : ¬ AgentVault.u64Mod ≤ v.balance_sui + 0)]
    simp only [Nat.add_zero]
  · intro coin e hb hd
    unfold AgentVault.deposit at hd
    by_cases hne : oc.vault_id ≠ v.id
    · rw [if_pos hne] at hd
      simp only [Except.error.injEq] at hd
      exact ⟨hd.symm, hne⟩
    · rw [if_neg hne, if_neg (by omega : ¬ AgentVault.u64Mod ≤
        v.balance_sui + coin)] at hd
      exact absurd hd (by simp)

/-- Witness for C10: a zero deposit into the sample vault succeeds and
leaves it unchanged, and a deposit with a foreign owner capability fails
with the not-owner code. -/
theorem c10_deposit_no_positivity_check_witness :
    AgentVault.deposit sampleVault sampleOwnerCap 0 =
        Except.ok (sampleVault,
          { vault_id := sampleVault.id, amount := 0,
            new_balance := sampleVault.balance_sui }) ∧
      (AgentVault.MoveAbort.code AgentVault.E_NOT_OWNER =
          AgentVault.MoveAbort.code AgentVault.E_NOT_OWNER ∧
        otherOwnerCap.vault_id ≠ sampleVault.id) :=
  ⟨(c10_deposit_no_positivity_check sampleVault sampleOwnerCap).1 rfl
      (by decide),
   (c10_deposit_no_positivity_check sampleVault otherOwnerCap).2 5
     (AgentVault.MoveAbort.code AgentVault.E_NOT_OWNER) (by decide) (by rfl)⟩

/-- The budget invariant of the spec: `totalSpent <= policy.maxBudget`. -/
def budgetInv (v : AgentVault.Vault) : Prop :=
  v.total_spent ≤ v.policy.max_budget

instance (v : AgentVault.Vault) : Decidable (budgetInv v) := by
  unfold budgetInv
  infer_instance

/-- The sample vault after its whole budget of 5 has been spent. -/
def spentVault : AgentVault.Vault :=
  { sampleVault with total_spent := 5, tx_count := 5, last_tx_time := 100 }

/-- `spentVault` after the owner lowers `max_budget` to 3. -/
def loweredVault : AgentVault.Vault :=
  { spentVault with policy :=
      { max_budget := 3
        max_per_tx := 1
        allowed_actions := [0]
        cooldown_ms := 60000
        expires_at := 1000000 } }

/-- Counterexample to claim C3 as stated: the invariant
`totalSpent <= policy.maxBudget` holds of `spentVault` (5 <= 5), yet the
successful `update_policy` lowering `max_budget` to 3 leaves a state with
`totalSpent = 5 > 3 = policy.maxBudget`, so the invariant is not preserved
by every operation of the public surface. -/
theorem c3_budget_invariant_counterexample :
    budgetInv spentVault ∧
      AgentVault.update_policy spentVault sampleOwnerCap 3 1 [0] 60000
          1000000 =
        Except.ok (loweredVault,
          { vault_id := 1, max_budget := 3, max_per_tx := 1,
            cooldown_ms := 60000, expires_at := 1000000 }) ∧
      ¬ budgetInv loweredVault :=
  ⟨by decide, by rfl, by decide⟩

/-- Claim C3 amended: the invariant `totalSpent <= policy.maxBudget` is
established at creation and preserved by deposit, owner withdrawals, counter
reset, capability mint and revocation, and delegated withdrawal — but not by
`update_policy`, which can set `maxBudget` below the accumulated
`totalSpent`.  A delegated withdrawal from an invariant-satisfying state
that passes checks 1-6 but whose amount exceeds the remaining budget is
rejected with `BudgetExceeded` (never silently clamped). -/
theorem c3_budget_invariant_amended :
    (∀ coin mb mpt aa cd ea s vu ou,
      budgetInv (AgentVault.create_vault coin mb mpt aa cd ea s vu ou).1) ∧
      (∀ v oc coin r, AgentVault.deposit v oc coin = Except.ok r →
        budgetInv v → budgetInv r.1) ∧
      (∀ v oc r, AgentVault.withdraw_all v oc = Except.ok r →
        budgetInv v → budgetInv r.1) ∧
      (∀ v oc amount r, AgentVault.withdraw v oc amount = Except.ok r →
        budgetInv v → budgetInv r.1) ∧
      (∀ v oc v', AgentVault.reset_counters v oc = Except.ok v' →
        budgetInv v') ∧
      (∀ v oc cu r, AgentVault.create_agent_cap v oc cu = Except.ok r →
        budgetInv v → budgetInv r.1) ∧
      (∀ v oc ci r, AgentVault.revoke_agent_cap v oc ci = Except.ok r →
        budgetInv v → budgetInv r.1) ∧
      (∀ v cap amount action now r,
        AgentVault.agent_withdraw v cap amount action now = Except.ok r →
        budgetInv r.1) ∧
      (∀ v cap amount action now, budgetInv v → amount ≠ 0 →
        cap.vault_id = v.id → cap.id ∈ v.authorized_caps →
        now < v.policy.expires_at →
        (0 < v.tx_count → v.last_tx_time ≤ now ∧
          v.policy.cooldown_ms ≤ now - v.last_tx_time) →
        amount ≤ v.policy.max_per_tx →
        v.policy.max_budget - v.total_spent < amount →
        AgentVault.agent_withdraw v cap amount action now =
          Except.error
            (AgentVault.MoveAbort.code AgentVault.E_BUDGET_EXCEEDED)) := by
  refine ⟨fun _ mb _ _ _ _ _ _ _ => Nat.zero_le mb,
    fun v oc coin r h hi => ?_, fun v oc r h hi => ?_,
    fun v oc amount r h hi => ?_, fun v oc v' h => ?_,
    fun v oc cu r h hi => ?_, fun v oc ci r h hi => ?_,
    fun v cap amount action now r h => ?_,
    fun v cap amount action now hi h1 h2 h3 h4 h5 h6 h7 => ?_⟩
  · unfold AgentVault.deposit at h
    by_cases g : oc.vault_id ≠ v.id
    · rw [if_pos g] at h
      exact absurd h (by simp)
    rw [if_neg g] at h
    by_cases g2 : AgentVault.u64Mod ≤ v.balance_sui + coin
    · rw [if_pos g2] at h
      exact absurd h (by simp)
    rw [if_neg g2] at h
    simp only [Except.ok.injEq] at h
    subst h
    exact hi
  · unfold AgentVault.withdraw_all at h
    by_cases g : oc.vault_id ≠ v.id
    · rw [if_pos g] at h
      exact absurd h (by simp)
    rw [if_neg g] at h
    simp only [Except.ok.injEq] at h
    subst h
    exact hi
  · unfold AgentVault.withdraw at h
    by_cases g : oc.vault_id ≠ v.id
    · rw [if_pos g] at h
      exact absurd h (by simp)
    rw [if_neg g] at h
    by_cases g2 : amount = 0
    · rw [if_pos g2] at h
      exact absurd h (by simp)
    rw [if_neg g2] at h
    by_cases g3 : v.balance_sui < amount
    · rw [if_pos g3] at h
      exact absurd h (by simp)
    rw [if_neg g3] at h
    simp only [Except.ok.injEq] at h
    subst h
    exact hi
  · unfold AgentVault.reset_counters at h
    by_cases g : oc.vault_id ≠ v.id
    · rw [if_pos g] at h
      exact absurd h (by simp)
    rw [if_neg g] at h
    simp only [Except.ok.injEq] at h
    subst h
    exact Nat.zero_le _
  · unfold AgentVault.create_agent_cap at h
    by_cases g : oc.vault_id ≠ v.id
    · rw [if_pos g] at h
      exact absurd h (by simp)
    rw [if_neg g] at h
    simp only [Except.ok.injEq] at h
    subst h
    exact hi
  · unfold AgentVault.revoke_agent_cap at h
    by_cases g : oc.vault_id ≠ v.id
    · rw [if_pos g] at h
      exact absurd h (by simp)
    rw [if_neg g] at h
    by_cases g2 : (AgentVault.index_of v.authorized_caps ci).fst = false
    · rw [if_pos g2] at h
      exact absurd h (by simp)
    rw [if_neg g2] at h
    simp only [Except.ok.injEq] at h
    subst h
    exact hi
  · obtain ⟨v', ev, coin⟩ := r
    have hfr := aw_ok_frame v v' cap amount action now ev coin h
    have hok : (AgentVault.agent_withdraw v cap amount action now).isOk
        = true := by
      rw [h]; rfl
    obtain ⟨-, -, -, -, -, -, a7, a8, -⟩ :=
      (AgentVault.aw_isOk_iff v cap amount action now).mp hok
    have hpol : v'.policy = v.policy := hfr.2.2.2.2.2.2.2.2.1
    have hts : v'.total_spent = v.total_spent + amount := hfr.2.2.1
    unfold budgetInv
    rw [hpol, hts]
    omega
  · have hA : ¬ (0 < v.tx_count ∧ now < v.last_tx_time) := by
      rintro ⟨p, q⟩
      exact absurd ((h5 p).1) (by omega)
    have hB : ¬ (0 < v.tx_count ∧
        now - v.last_tx_time < v.policy.cooldown_ms) := by
      rintro ⟨p, q⟩
      exact absurd ((h5 p).2) (by omega)
    unfold AgentVault.agent_withdraw
    rw [if_neg h1, if_neg (by simp [h2]),
      if_neg (by simp [AgentVault.index_of_fst_false, h3]),
      if_neg (by omega : ¬ v.policy.expires_at ≤ now),
      if_neg hA, if_neg hB,
      if_neg (by omega : ¬ v.policy.max_per_tx < amount),
      if_neg (?_ : ¬ v.policy.max_budget < v.total_spent),
      if_pos h7]
    unfold budgetInv at hi
    omega

/-- Witness for C3 amended: the exhausted sample vault (budget 5, spent 5)
rejects a withdrawal of 1 with the budget code, and a successful withdrawal
from the fresh sample vault re-establishes the invariant. -/
theorem c3_budget_invariant_amended_witness :
    AgentVault.agent_withdraw spentVault sampleCap 1 0 100000 =
        Except.error
          (AgentVault.MoveAbort.code AgentVault.E_BUDGET_EXCEEDED) ∧
      budgetInv { sampleVault with
        balance_sui := 9, total_spent := 1, last_tx_time := 5,
        tx_count := 1 } :=
  ⟨c3_budget_invariant_amended.2.2.2.2.2.2.2.2 spentVault sampleCap 1 0
      100000 (by decide) (by decide) rfl (by decide) (by decide)
      (fun _ => by constructor <;> decide) (by decide) (by decide),
   c3_budget_invariant_amended.2.2.2.2.2.2.2.1 sampleVault sampleCap 1 0 5
     ({ sampleVault with
        balance_sui := 9, total_spent := 1, last_tx_time := 5,
        tx_count := 1 },
      { vault_id := 1, agent_cap_id := 2, amount := 1, action_type := 0,
        total_spent := 1, remaining_budget := 4, tx_count := 1,
        timestamp := 5 }, 1) (by rfl)⟩

namespace AgentVault

theorem index_of_eraseIdx (l : List Nat) (e : Nat) (h : e ∈ l) :
    l.eraseIdx (index_of l e).snd = l.erase e := by
  induction l with
  | nil => cases h
  | cons x xs ih =>
    unfold index_of
    by_cases hx : x = e
    · rw [if_pos hx]
      simp [List.erase_cons, hx]
    · rw [if_neg hx]
      have hmem : e ∈ xs := by
        rcases List.mem_cons.mp h with h1 | h1
        · exact absurd h1.symm hx
        · exact h1
      have hfst : (index_of xs e).fst = true := (index_of_fst xs e).mpr hmem
      rw [if_pos hfst]
      simp only [List.eraseIdx_cons_succ]
      rw [List.erase_cons, if_neg (by simp [hx]), ih hmem]

/-- Behaviour of `revoke_agent_cap` under a valid owner capability: failure
exactly when the id is not registered, and removal of the first occurrence
otherwise. -/
theorem revoke_cases (v : Vault) (oc : OwnerCap) (ci : Nat)
    (h : oc.vault_id = v.id) :
    (ci ∉ v.authorized_caps →
      revoke_agent_cap v oc ci = .error (.code E_INVALID_CAP)) ∧
      (ci ∈ v.authorized_caps →
        revoke_agent_cap v oc ci =
          .ok ({ v with authorized_caps := v.authorized_caps.erase ci },
            { vault_id := v.id, cap_id := ci })) := by
  have hne : ¬ oc.vault_id ≠ v.id := by simp [h]
  constructor
  · intro hm
    unfold revoke_agent_cap
    rw [if_neg hne, if_pos ((index_of_fst_false _ _).mpr hm)]
  · intro hm
    unfold revoke_agent_cap
    rw [if_neg hne,
      if_neg (by simp [index_of_fst_false, hm]),
      index_of_eraseIdx _ _ hm]

/-- A delegated withdrawal with a nonzero amount whose capability id is not
registered fails with `E_INVALID_CAP` (at check 2 or check 3). -/
theorem aw_invalid_of_not_mem (v : Vault) (cap : AgentCap)
    (amount action now : Nat) (h0 : amount ≠ 0)
    (hm : cap.id ∉ v.authorized_caps) :
    agent_withdraw v cap amount action now = .error (.code E_INVALID_CAP) := by
  unfold agent_withdraw
  rw [if_neg h0]
  by_cases hb : cap.vault_id ≠ v.id
  · rw [if_pos hb]
  · rw [if_neg hb, if_pos ((index_of_fst_false _ _).mpr hm)]

end AgentVault

/-- Counterexample to claim C7 as stated: after successfully revoking
capability id 2 from the sample vault, a delegated withdrawal presenting
that capability with amount 0 fails with `E_ZERO_AMOUNT` (check 1 precedes
the capability checks), not with `E_INVALID_CAP`. -/
theorem c7_revoked_cap_counterexample :
    AgentVault.revoke_agent_cap sampleVault sampleOwnerCap 2 =
        Except.ok ({ sampleVault with authorized_caps := [] },
          { vault_id := 1, cap_id := 2 }) ∧
      AgentVault.agent_withdraw
          { sampleVault with authorized_caps := [] } sampleCap 0 0 5 =
        Except.error (AgentVault.MoveAbort.code AgentVault.E_ZERO_AMOUNT) ∧
      AgentVault.E_ZERO_AMOUNT ≠ AgentVault.E_INVALID_CAP :=
  ⟨by rfl, by rfl, by decide⟩

/-- Claim C7 amended: with a valid owner capability, revocation removes a
registered identifier (first occurrence; under a duplicate-free registry the
id is no longer present) and fails with `InvalidCapability` for an
unregistered one; after a successful revocation every delegated withdrawal
presenting that identifier with a nonzero amount fails with
`InvalidCapability` (a zero-amount one fails with `ZeroAmount` instead). -/
theorem c7_revoke_semantics_amended (v : AgentVault.Vault)
    (oc : AgentVault.OwnerCap) (ci : Nat) (h : oc.vault_id = v.id) :
    (ci ∉ v.authorized_caps →
      AgentVault.revoke_agent_cap v oc ci =
        Except.error (AgentVault.MoveAbort.code AgentVault.E_INVALID_CAP)) ∧
      (ci ∈ v.authorized_caps →
        ∃ v', AgentVault.revoke_agent_cap v oc ci =
            Except.ok (v', { vault_id := v.id, cap_id := ci }) ∧
          v'.authorized_caps = v.authorized_caps.erase ci ∧
          (v.authorized_caps.Nodup →
            ci ∉ v'.authorized_caps ∧
            ∀ cap amount action now,
              (cap : AgentVault.AgentCap).id = ci → amount ≠ 0 →
              AgentVault.agent_withdraw v' cap amount action now =
                Except.error
                  (AgentVault.MoveAbort.code AgentVault.E_INVALID_CAP))) := by
  obtain ⟨habs, hpres⟩ := AgentVault.revoke_cases v oc ci h
  refine ⟨habs, fun hm => ?_⟩
  refine ⟨{ v with authorized_caps := v.authorized_caps.erase ci },
    hpres hm, rfl, fun hnd => ?_⟩
  have hout : ci ∉ v.authorized_caps.erase ci := by
    intro hc
    exact absurd rfl (hnd.mem_erase_iff.mp hc).1
  refine ⟨hout, fun cap amount action now hci h0 => ?_⟩
  subst hci
  exact AgentVault.aw_invalid_of_not_mem _ cap amount action now h0 hout

/-- Witness for C7 amended: revoking the unregistered id 99 fails with the
invalid-capability code, and revoking the registered id 2 removes it, after
which a nonzero withdrawal with that capability fails with the
invalid-capability code. -/
theorem c7_revoke_semantics_amended_witness :
    AgentVault.revoke_agent_cap sampleVault sampleOwnerCap 99 =
        Except.error (AgentVault.MoveAbort.code AgentVault.E_INVALID_CAP) ∧
      ∃ v', AgentVault.revoke_agent_cap sampleVault sampleOwnerCap 2 =
          Except.ok (v', { vault_id := sampleVault.id, cap_id := 2 }) ∧
        v'.authorized_caps = sampleVault.authorized_caps.erase 2 ∧
        (sampleVault.authorized_caps.Nodup →
          2 ∉ v'.authorized_caps ∧
          ∀ cap amount action now,
            (cap : AgentVault.AgentCap).id = 2 → amount ≠ 0 →
            AgentVault.agent_withdraw v' cap amount action now =
              Except.error
                (AgentVault.MoveAbort.code AgentVault.E_INVALID_CAP)) :=
  ⟨(c7_revoke_semantics_amended sampleVault sampleOwnerCap 99 rfl).1
      (by decide),
   (c7_revoke_semantics_amended sampleVault sampleOwnerCap 2 rfl).2
     (by decide)⟩

namespace AgentVault

/-- Necessary conditions attached to each abort code of `agent_withdraw`:
whenever the call fails with a code, the corresponding check condition was
violated. -/
theorem aw_error_necessary (v : Vault) (cap : AgentCap)
    (amount action now : Nat) (e : Nat)
    (h : agent_withdraw v cap amount action now = .error (.code e)) :
    (e = E_ZERO_AMOUNT ∧ amount = 0) ∨
      e = E_INVALID_CAP ∨
      (e = E_EXPIRED ∧ v.policy.expires_at ≤ now) ∨
      (e = E_COOLDOWN ∧ 0 < v.tx_count ∧
        now - v.last_tx_time < v.policy.cooldown_ms) ∨
      (e = E_PER_TX_EXCEEDED ∧ v.policy.max_per_tx < amount) ∨
      (e = E_BUDGET_EXCEEDED ∧ v.total_spent ≤ v.policy.max_budget ∧
        v.policy.max_budget - v.total_spent < amount) ∨
      (e = E_NOT_WHITELISTED ∧ ¬ action ∈ v.policy.allowed_actions) ∨
      (e = E_INSUFFICIENT_BALANCE ∧ v.balance_sui < amount) := by
  unfold agent_withdraw at h
  by_cases g1 : amount = 0
  · rw [if_pos g1] at h
    exact Or.inl ⟨(MoveAbort.code.inj (Except.error.inj h)).symm, g1⟩
  rw [if_neg g1] at h
  by_cases g2 : cap.vault_id ≠ v.id
  · rw [if_pos g2] at h
    exact Or.inr (Or.inl (MoveAbort.code.inj (Except.error.inj h)).symm)
  rw [if_neg g2] at h
  by_cases g3 : (index_of v.authorized_caps cap.id).fst = false
  · rw [if_pos g3] at h
    exact Or.inr (Or.inl (MoveAbort.code.inj (Except.error.inj h)).symm)
  rw [if_neg g3] at h
  by_cases g4 : v.policy.expires_at ≤ now
  · rw [if_pos g4] at h
    exact Or.inr (Or.inr (Or.inl
      ⟨(MoveAbort.code.inj (Except.error.inj h)).symm, g4⟩))
  rw [if_neg g4] at h
  by_cases g5 : 0 < v.tx_count ∧ now < v.last_tx_time
  · rw [if_pos g5] at h
    exact absurd (Except.error.inj h) (by intro hc; cases hc)
  rw [if_neg g5] at h
  by_cases g6 : 0 < v.tx_count ∧ now - v.last_tx_time < v.policy.cooldown_ms
  · rw [if_pos g6] at h
    exact Or.inr (Or.inr (Or.inr (Or.inl
      ⟨(MoveAbort.code.inj (Except.error.inj h)).symm, g6.1, g6.2⟩)))
  rw [if_neg g6] at h
  by_cases g7 : v.policy.max_per_tx < amount
  · rw [if_pos g7] at h
    exact Or.inr (Or.inr (Or.inr (Or.inr (Or.inl
      ⟨(MoveAbort.code.inj (Except.error.inj h)).symm, g7⟩))))
  rw [if_neg g7] at h
  by_cases g8 : v.policy.max_budget < v.total_spent
  · rw [if_pos g8] at h
    exact absurd (Except.error.inj h) (by intro hc; cases hc)
  rw [if_neg g8] at h
  by_cases g9 : v.policy.max_budget - v.total_spent < amount
  · rw [if_pos g9] at h
    exact Or.inr (Or.inr (Or.inr (Or.inr (Or.inr (Or.inl
      ⟨(MoveAbort.code.inj (Except.error.inj h)).symm, by omega, g9⟩)))))
  rw [if_neg g9] at h
  by_cases g10 : ¬ action ∈ v.policy.allowed_actions
  · rw [if_pos g10] at h
    exact Or.inr (Or.inr (Or.inr (Or.inr (Or.inr (Or.inr (Or.inl
      ⟨(MoveAbort.code.inj (Except.error.inj h)).symm, g10⟩))))))
  rw [if_neg g10] at h
  by_cases g11 : v.balance_sui < amount
  · rw [if_pos g11] at h
    exact Or.inr (Or.inr (Or.inr (Or.inr (Or.inr (Or.inr (Or.inr
      ⟨(MoveAbort.code.inj (Except.error.inj h)).symm, g11⟩))))))
  rw [if_neg g11] at h
  by_cases g12 : u64Mod ≤ v.total_spent + amount
  · rw [if_pos g12] at h
    exact absurd (Except.error.inj h) (by intro hc; cases hc)
  rw [if_neg g12] at h
  by_cases g13 : u64Mod ≤ v.tx_count + 1
  · rw [if_pos g13] at h
    exact absurd (Except.error.inj h) (by intro hc; cases hc)
  rw [if_neg g13] at h
  exact Except.noConfusion h

end AgentVault

namespace Sdk

/-- Necessary conditions attached to each denial reason of the mirror check
with an amount supplied. -/
theorem checkPolicy_reason_necessary (tv : TsVault) (action nowMs a : Int) :
    ((checkPolicy tv action nowMs (some a)).reason = .perTxExceeded →
        tv.policy.maxPerTx < a) ∧
      ((checkPolicy tv action nowMs (some a)).reason = .budgetExceeded →
        tv.policy.maxBudget - tv.totalSpent < a) ∧
      ((checkPolicy tv action nowMs (some a)).reason = .insufficientBalance →
        tv.balance < a) ∧
      ((checkPolicy tv action nowMs (some a)).reason = .cooldownActive →
        0 < tv.txCount ∧ nowMs - tv.lastTxTime < tv.policy.cooldownMs) := by
  unfold checkPolicy
  by_cases h1 : tv.policy.expiresAt ≤ nowMs
  · rw [if_pos h1]
    exact ⟨fun hr => absurd hr (by decide), fun hr => absurd hr (by decide),
      fun hr => absurd hr (by decide), fun hr => absurd hr (by decide)⟩
  rw [if_neg h1]
  by_cases h2 : 0 < tv.txCount ∧ nowMs - tv.lastTxTime < tv.policy.cooldownMs
  · rw [if_pos h2]
    exact ⟨fun hr => absurd hr (by decide), fun hr => absurd hr (by decide),
      fun hr => absurd hr (by decide), fun _ => h2⟩
  rw [if_neg h2]
  by_cases h3 : ¬ action ∈ tv.policy.allowedActions
  · rw [if_pos h3]
    exact ⟨fun hr => absurd hr (by decide), fun hr => absurd hr (by decide),
      fun hr => absurd hr (by decide), fun hr => absurd hr (by decide)⟩
  rw [if_neg h3]
  simp only []
  by_cases h4 : a ≤ 0
  · rw [if_pos h4]
    exact ⟨fun hr => absurd hr (by decide), fun hr => absurd hr (by decide),
      fun hr => absurd hr (by decide), fun hr => absurd hr (by decide)⟩
  rw [if_neg h4]
  by_cases h5 : tv.policy.maxPerTx < a
  · rw [if_pos h5]
    exact ⟨fun _ => h5, fun hr => absurd hr (by decide),
      fun hr => absurd hr (by decide), fun hr => absurd hr (by decide)⟩
  rw [if_neg h5]
  by_cases h6 : tv.policy.maxBudget - tv.totalSpent < a
  · rw [if_pos h6]
    exact ⟨fun hr => absurd hr (by decide), fun _ => h6,
      fun hr => absurd hr (by decide), fun hr => absurd hr (by decide)⟩
  rw [if_neg h6]
  by_cases h7 : tv.balance < a
  · rw [if_pos h7]
    exact ⟨fun hr => absurd hr (by decide), fun hr => absurd hr (by decide),
      fun _ => h7, fun hr => absurd hr (by decide)⟩
  rw [if_neg h7]
  exact ⟨fun hr => absurd hr (by decide), fun hr => absurd hr (by decide),
    fun hr => absurd hr (by decide), fun hr => absurd hr (by decide)⟩

end Sdk

/-- The sample vault with an empty action whitelist. -/
def emptyActionsVault : AgentVault.Vault :=
  { sampleVault with policy :=
      { max_budget := 5
        max_per_tx := 1
        allowed_actions := []
        cooldown_ms := 60000
        expires_at := 1000000 } }

/-- Claim C5: all limit comparisons are inclusive except expiry, on both
paths: amount equal to `maxPerOperation`, to the remaining budget, or to the
balance never trips the corresponding check; elapsed time exactly equal to
the cooldown passes; `now` exactly equal to `expiresAt` is rejected with
`Expired`; and an empty whitelist rejects every action tag. -/
theorem c5_boundary_semantics :
    (∀ v cap amount action now,
      amount = (v : AgentVault.Vault).policy.max_per_tx →
      AgentVault.agent_withdraw v cap amount action now ≠
        Except.error
          (AgentVault.MoveAbort.code AgentVault.E_PER_TX_EXCEEDED)) ∧
      (∀ v cap amount action now,
        amount = (v : AgentVault.Vault).policy.max_budget - v.total_spent →
        AgentVault.agent_withdraw v cap amount action now ≠
          Except.error
            (AgentVault.MoveAbort.code AgentVault.E_BUDGET_EXCEEDED)) ∧
      (∀ v cap amount action now,
        amount = (v : AgentVault.Vault).balance_sui →
        AgentVault.agent_withdraw v cap amount action now ≠
          Except.error
            (AgentVault.MoveAbort.code AgentVault.E_INSUFFICIENT_BALANCE)) ∧
      (∀ v cap amount action now, 0 < (v : AgentVault.Vault).tx_count →
        now - v.last_tx_time = v.policy.cooldown_ms →
        AgentVault.agent_withdraw v cap amount action now ≠
          Except.error (AgentVault.MoveAbort.code AgentVault.E_COOLDOWN)) ∧
      (∀ v cap amount action, amount ≠ 0 →
        (cap : AgentVault.AgentCap).vault_id = (v : AgentVault.Vault).id →
        cap.id ∈ v.authorized_caps →
        AgentVault.agent_withdraw v cap amount action v.policy.expires_at =
          Except.error (AgentVault.MoveAbort.code AgentVault.E_EXPIRED)) ∧
      (∀ v cap amount action now,
        (v : AgentVault.Vault).policy.allowed_actions = [] → amount ≠ 0 →
        (cap : AgentVault.AgentCap).vault_id = v.id →
        cap.id ∈ v.authorized_caps → now < v.policy.expires_at →
        (0 < v.tx_count → v.last_tx_time ≤ now ∧
          v.policy.cooldown_ms ≤ now - v.last_tx_time) →
        amount ≤ v.policy.max_per_tx →
        v.total_spent ≤ v.policy.max_budget →
        amount ≤ v.policy.max_budget - v.total_spent →
        AgentVault.agent_withdraw v cap amount action now =
          Except.error
            (AgentVault.MoveAbort.code AgentVault.E_NOT_WHITELISTED)) ∧
      (∀ tv action nowMs a, a = (tv : Sdk.TsVault).policy.maxPerTx →
        (Sdk.checkPolicy tv action nowMs (some a)).reason ≠
          Sdk.MirrorReason.perTxExceeded) ∧
      (∀ tv action nowMs a,
        a = (tv : Sdk.TsVault).policy.maxBudget - tv.totalSpent →
        (Sdk.checkPolicy tv action nowMs (some a)).reason ≠
          Sdk.MirrorReason.budgetExceeded) ∧
      (∀ tv action nowMs a, a = (tv : Sdk.TsVault).balance →
        (Sdk.checkPolicy tv action nowMs (some a)).reason ≠
          Sdk.MirrorReason.insufficientBalance) ∧
      (∀ tv action nowMs a, 0 < (tv : Sdk.TsVault).txCount →
        nowMs - tv.lastTxTime = tv.policy.cooldownMs →
        (Sdk.checkPolicy tv action nowMs (some a)).reason ≠
          Sdk.MirrorReason.cooldownActive) ∧
      (∀ tv action amt,
        Sdk.checkPolicy tv action (tv : Sdk.TsVault).policy.expiresAt amt =
          { allowed := false, reason := Sdk.MirrorReason.expired }) ∧
      (∀ tv action nowMs amt,
        (tv : Sdk.TsVault).policy.allowedActions = [] →
        nowMs < tv.policy.expiresAt →
        (0 < tv.txCount → tv.policy.cooldownMs ≤ nowMs - tv.lastTxTime) →
        Sdk.checkPolicy tv action nowMs amt =
          { allowed := false,
            reason := Sdk.MirrorReason.actionNotWhitelisted }) := by
  refine ⟨?_, ?_, ?_, ?_, ?_, ?_, ?_, ?_, ?_, ?_, ?_, ?_⟩
  · rintro v cap amount action now rfl hcon
    rcases AgentVault.aw_error_necessary _ _ _ _ _ _ hcon with
      ⟨he, -⟩ | he | ⟨he, -⟩ | ⟨he, -⟩ | ⟨-, hlt⟩ | ⟨he, -⟩ | ⟨he, -⟩ | ⟨he, -⟩
    · exact absurd he (by decide)
    · exact absurd he (by decide)
    · exact absurd he (by decide)
    · exact absurd he (by decide)
    · omega
    · exact absurd he (by decide)
    · exact absurd he (by decide)
    · exact absurd he (by decide)
  · rintro v cap amount action now rfl hcon
    rcases AgentVault.aw_error_necessary _ _ _ _ _ _ hcon with
      ⟨he, -⟩ | he | ⟨he, -⟩ | ⟨he, -⟩ | ⟨he, -⟩ | ⟨-, -, hlt⟩ | ⟨he, -⟩ |
      ⟨he, -⟩
    · exact absurd he (by decide)
    · exact absurd he (by decide)
    · exact absurd he (by decide)
    · exact absurd he (by decide)
    · exact absurd he (by decide)
    · omega
    · exact absurd he (by decide)
    · exact absurd he (by decide)
  · rintro v cap amount action now rfl hcon
    rcases AgentVault.aw_error_necessary _ _ _ _ _ _ hcon with
      ⟨he, -⟩ | he | ⟨he, -⟩ | ⟨he, -⟩ | ⟨he, -⟩ | ⟨he, -⟩ | ⟨he, -⟩ | ⟨-, hlt⟩
    · exact absurd he (by decide)
    · exact absurd he (by decide)
    · exact absurd he (by decide)
    · exact absurd he (by decide)
    · exact absurd he (by decide)
    · exact absurd he (by decide)
    · exact absurd he (by decide)
    · omega
  · intro v cap amount action now htx helapsed hcon
    rcases AgentVault.aw_error_necessary _ _ _ _ _ _ hcon with
      ⟨he, -⟩ | he | ⟨he, -⟩ | ⟨-, -, hlt⟩ | ⟨he, -⟩ | ⟨he, -⟩ | ⟨he, -⟩ |
      ⟨he, -⟩
    · exact absurd he (by decide)
    · exact absurd he (by decide)
    · exact absurd he (by decide)
    · omega
    · exact absurd he (by decide)
    · exact absurd he (by decide)
    · exact absurd he (by decide)
    · exact absurd he (by decide)
  · intro v cap amount action h0 hb hm
    unfold AgentVault.agent_withdraw
    rw [if_neg h0, if_neg (by simp [hb]),
      if_neg (by simp [AgentVault.index_of_fst_false, hm]),
      if_pos (Nat.le_refl _)]
  · intro v cap amount action now hempty h0 hb hm hexp hcd hpt hinv hbud
    have hA : ¬ (0 < v.tx_count ∧ now < v.last_tx_time) := by
      rintro ⟨p, q⟩
      exact absurd ((hcd p).1) (by omega)
    have hB : ¬ (0 < v.tx_count ∧
        now - v.last_tx_time < v.policy.cooldown_ms) := by
      rintro ⟨p, q⟩
      exact absurd ((hcd p).2) (by omega)
    unfold AgentVault.agent_withdraw
    rw [if_neg h0, if_neg (by simp [hb]),
      if_neg (by simp [AgentVault.index_of_fst_false, hm]),
      if_neg (by omega : ¬ v.policy.expires_at ≤ now),
      if_neg hA, if_neg hB,
      if_neg (by omega : ¬ v.policy.max_per_tx < amount),
      if_neg (by omega : ¬ v.policy.max_budget < v.total_spent),
      if_neg (by omega : ¬ v.policy.max_budget - v.total_spent < amount),
      if_pos (by simp [hempty])]
  · rintro tv action nowMs a rfl hcon
    exact absurd ((Sdk.checkPolicy_reason_necessary tv action nowMs _).1 hcon)
      (by omega)
  · rintro tv action nowMs a rfl hcon
    exact absurd
      ((Sdk.checkPolicy_reason_necessary tv action nowMs _).2.1 hcon)
      (by omega)
  · rintro tv action nowMs a rfl hcon
    exact absurd
      ((Sdk.checkPolicy_reason_necessary tv action nowMs _).2.2.1 hcon)
      (by omega)
  · intro tv action nowMs a htx helapsed hcon
    have := ((Sdk.checkPolicy_reason_necessary tv action nowMs a).2.2.2 hcon).2
    omega
  · intro tv action amt
    unfold Sdk.checkPolicy
    rw [if_pos (Int.le_refl _)]
  · intro tv action nowMs amt hempty hexp hcd
    unfold Sdk.checkPolicy
    rw [if_neg (by omega : ¬ tv.policy.expiresAt ≤ nowMs),
      if_neg (?_ : ¬ (0 < tv.txCount ∧
        nowMs - tv.lastTxTime < tv.policy.cooldownMs)),
      if_pos (by simp [hempty])]
    rintro ⟨p, q⟩
    exact absurd (hcd p) (by omega)

/-- Witness for C5: each boundary conjunct instantiated on the sample
vaults (per-operation cap 1, budget 5, balance 10, cooldown 60000,
expiry 1000000). -/
theorem c5_boundary_semantics_witness :
    (AgentVault.agent_withdraw sampleVault sampleCap 1 0 5 ≠
        Except.error
          (AgentVault.MoveAbort.code AgentVault.E_PER_TX_EXCEEDED)) ∧
      (AgentVault.agent_withdraw sampleVault sampleCap 5 0 5 ≠
        Except.error
          (AgentVault.MoveAbort.code AgentVault.E_BUDGET_EXCEEDED)) ∧
      (AgentVault.agent_withdraw sampleVault sampleCap 10 0 5 ≠
        Except.error
          (AgentVault.MoveAbort.code AgentVault.E_INSUFFICIENT_BALANCE)) ∧
      (AgentVault.agent_withdraw spentVault sampleCap 1 0 60100 ≠
        Except.error (AgentVault.MoveAbort.code AgentVault.E_COOLDOWN)) ∧
      (AgentVault.agent_withdraw sampleVault sampleCap 1 0
          sampleVault.policy.expires_at =
        Except.error (AgentVault.MoveAbort.code AgentVault.E_EXPIRED)) ∧
      (AgentVault.agent_withdraw emptyActionsVault sampleCap 1 0 5 =
        Except.error
          (AgentVault.MoveAbort.code AgentVault.E_NOT_WHITELISTED)) ∧
      ((Sdk.checkPolicy (Sdk.toTs sampleVault) 0 5 (some 1)).reason ≠
        Sdk.MirrorReason.perTxExceeded) ∧
      ((Sdk.checkPolicy (Sdk.toTs sampleVault) 0 5 (some 5)).reason ≠
        Sdk.MirrorReason.budgetExceeded) ∧
      ((Sdk.checkPolicy (Sdk.toTs sampleVault) 0 5 (some 10)).reason ≠
        Sdk.MirrorReason.insufficientBalance) ∧
      ((Sdk.checkPolicy (Sdk.toTs spentVault) 0 60100 (some 1)).reason ≠
        Sdk.MirrorReason.cooldownActive) ∧
      (Sdk.checkPolicy (Sdk.toTs sampleVault) 0
          (Sdk.toTs sampleVault).policy.expiresAt (some 1) =
        { allowed := false, reason := Sdk.MirrorReason.expired }) ∧
      (Sdk.checkPolicy (Sdk.toTs emptyActionsVault) 0 5 none =
        { allowed := false,
          reason := Sdk.MirrorReason.actionNotWhitelisted }) :=
  ⟨c5_boundary_semantics.1 sampleVault sampleCap 1 0 5 (by rfl),
   c5_boundary_semantics.2.1 sampleVault sampleCap 5 0 5 (by rfl),
   c5_boundary_semantics.2.2.1 sampleVault sampleCap 10 0 5 (by rfl),
   c5_boundary_semantics.2.2.2.1 spentVault sampleCap 1 0 60100 (by decide)
     (by rfl),
   c5_boundary_semantics.2.2.2.2.1 sampleVault sampleCap 1 0 (by decide) rfl
     (by decide),
   c5_boundary_semantics.2.2.2.2.2.1 emptyActionsVault sampleCap 1 0 5 rfl
     (by decide) rfl (by decide) (by decide) (by decide) (by decide)
     (by decide) (by decide),
   c5_boundary_semantics.2.2.2.2.2.2.1 (Sdk.toTs sampleVault) 0 5 1
     (by decide),
   c5_boundary_semantics.2.2.2.2.2.2.2.1 (Sdk.toTs sampleVault) 0 5 5
     (by decide),
   c5_boundary_semantics.2.2.2.2.2.2.2.2.1 (Sdk.toTs sampleVault) 0 5 10
     (by decide),
   c5_boundary_semantics.2.2.2.2.2.2.2.2.2.1 (Sdk.toTs spentVault) 0 60100 1
     (by decide) (by decide),
   c5_boundary_semantics.2.2.2.2.2.2.2.2.2.2.1 (Sdk.toTs sampleVault) 0
     (some 1),
   c5_boundary_semantics.2.2.2.2.2.2.2.2.2.2.2 (Sdk.toTs emptyActionsVault)
     0 5 none (by rfl) (by decide) (by decide)⟩

namespace Sdk

/-- Transcription of the mirror's claimed check order — expiry, cooldown,
action whitelist, then (only when an amount is supplied) zero amount,
per-operation cap, budget, balance — returning the reason of the first
failing check. -/
def mirrorSpecReason (vault : TsVault) (actionType nowMs : Int)
    (amount : Option Int) : MirrorReason :=
  if vault.policy.expiresAt ≤ nowMs then .expired
  else if 0 < vault.txCount ∧
      nowMs - vault.lastTxTime < vault.policy.cooldownMs then .cooldownActive
  else if ¬ actionType ∈ vault.policy.allowedActions then .actionNotWhitelisted
  else
    match amount with
    | none => .passed
    | some a =>
      if a ≤ 0 then .zeroAmount
      else if vault.policy.maxPerTx < a then .perTxExceeded
      else if vault.policy.maxBudget - vault.totalSpent < a then .budgetExceeded
      else if vault.balance < a then .insufficientBalance
      else .passed

end Sdk

/-- Claim C9: the mirror evaluates its checks in its own fixed order
(expiry, cooldown, whitelist, then zero amount, per-operation cap, budget,
balance when an amount is supplied), returning the reason of the first
failing check, and allows exactly when no check fails; this order differs
from the authoritative path's, exhibited concretely: for a zero amount with
a non-whitelisted action the mirror reports the whitelist while the
authoritative path aborts with `E_ZERO_AMOUNT`. -/
theorem c9_mirror_order_and_divergence :
    (∀ tv action nowMs amt,
      (Sdk.checkPolicy tv action nowMs amt).reason =
          Sdk.mirrorSpecReason tv action nowMs amt ∧
        ((Sdk.checkPolicy tv action nowMs amt).allowed = true ↔
          Sdk.mirrorSpecReason tv action nowMs amt =
            Sdk.MirrorReason.passed)) ∧
      (Sdk.checkPolicy (Sdk.toTs sampleVault) 1 5 (some 0)).reason =
        Sdk.MirrorReason.actionNotWhitelisted ∧
      AgentVault.agent_withdraw sampleVault sampleCap 0 1 5 =
        Except.error (AgentVault.MoveAbort.code AgentVault.E_ZERO_AMOUNT) := by
  refine ⟨fun tv action nowMs amt => ?_, by decide, by rfl⟩
  unfold Sdk.checkPolicy Sdk.mirrorSpecReason
  by_cases h1 : tv.policy.expiresAt ≤ nowMs
  · rw [if_pos h1, if_pos h1]
    exact ⟨rfl, by decide⟩
  rw [if_neg h1, if_neg h1]
  by_cases h2 : 0 < tv.txCount ∧ nowMs - tv.lastTxTime < tv.policy.cooldownMs
  · rw [if_pos h2, if_pos h2]
    exact ⟨rfl, by decide⟩
  rw [if_neg h2, if_neg h2]
  by_cases h3 : ¬ action ∈ tv.policy.allowedActions
  · rw [if_pos h3, if_pos h3]
    exact ⟨rfl, by decide⟩
  rw [if_neg h3, if_neg h3]
  cases amt with
  | none => exact ⟨rfl, by simp⟩
  | some a =>
    simp only []
    by_cases h4 : a ≤ 0
    · rw [if_pos h4, if_pos h4]
      exact ⟨rfl, by decide⟩
    rw [if_neg h4, if_neg h4]
    by_cases h5 : tv.policy.maxPerTx < a
    · rw [if_pos h5, if_pos h5]
      exact ⟨rfl, by decide⟩
    rw [if_neg h5, if_neg h5]
    by_cases h6 : tv.policy.maxBudget - tv.totalSpent < a
    · rw [if_pos h6, if_pos h6]
      exact ⟨rfl, by decide⟩
    rw [if_neg h6, if_neg h6]
    by_cases h7 : tv.balance < a
    · rw [if_pos h7, if_pos h7]
      exact ⟨rfl, by decide⟩
    rw [if_neg h7, if_neg h7]
    exact ⟨rfl, by decide⟩
